import Mathlib

/-
Verification development for the podcast-generator configuration module
(`src/config.py`).  The module's only logic-bearing parts are:

  * the module-level clamping/rounding of `PODCAST_DURATION_MINUTES`
    (config.py lines 28-39), embedded here as `normalize_duration`;
  * the section allocator `calculate_section_allocation`
    (config.py lines 54-133), embedded below under the same name.

Python floats are IEEE-754 binary64 values.  We model a float exactly as a
fixed-point integer: the integer `x` stands for the real value `x / 2^200`.
Every double whose exponent is ≥ -148 (all values occurring in this program
lie far inside that range) is representable exactly in this encoding.
`toDouble num den` produces the binary64 value nearest to `num/den`
(round-to-nearest, ties-to-even), scaled by `2^200`; `fmul`/`fdiv` are the
correctly rounded IEEE product and quotient, which is what CPython performs;
`pytrunc` is Python's `int(...)` truncation toward zero.  Subnormals and
overflow cannot arise for the magnitudes used in `config.py`, so they are
not modelled.
-/

set_option maxRecDepth 1000000

/-- Round the rational `num / den` (with `den > 0`) to the nearest integer,
breaking ties toward the even integer. -/
def roundHalfEven (num den : ℤ) : ℤ :=
  let q := Int.ediv num den
  let r := Int.emod num den
  if 2 * r < den then q
  else if den < 2 * r then q + 1
  else if Int.emod q 2 = 0 then q else q + 1

/-- Fuel-driven binary normalization of the positive fraction `a / b`:
returns `(a', b', e)` with `a' / b' = (a / b) · 2^(-e)` and `b' ≤ a' < 2·b'`,
i.e. the original value is `(a'/b') · 2^e` with mantissa `a'/b' ∈ [1, 2)`. -/
def normExp : ℕ → ℤ → ℤ → ℤ → ℤ × ℤ × ℤ
  | 0, a, b, e => (a, b, e)
  | f+1, a, b, e =>
    if a < b then normExp f (2*a) b (e-1)
    else if 2*b ≤ a then normExp f a (2*b) (e+1)
    else (a, b, e)

/-- The binary64 value nearest to `num / den` (both positive), scaled by
`2^200`: the 53-bit mantissa is obtained by round-to-nearest-even. -/
def doubleOfPos (num den : ℤ) : ℤ :=
  let abe := normExp 1100 num den 0
  let m := roundHalfEven (abe.1 * 2^52) abe.2.1
  let e := abe.2.2
  if 0 ≤ e + 148 then m * 2^(e + 148).toNat
  else Int.ediv m (2^(-(e + 148)).toNat)

/-- The binary64 value nearest to the rational `num / den` (`den > 0`),
scaled by `2^200`.  A Python float literal `p/q` denotes `toDouble p q`. -/
def toDouble (num den : ℤ) : ℤ :=
  if num = 0 then 0
  else if 0 < num then doubleOfPos num den
  else -(doubleOfPos (-num) den)

/-- IEEE binary64 multiplication (correctly rounded) on scaled doubles. -/
def fmul (x y : ℤ) : ℤ := toDouble (x * y) (2^200 * 2^200)

/-- IEEE binary64 division (correctly rounded) on scaled doubles. -/
def fdiv (x y : ℤ) : ℤ :=
  if y = 0 then 0
  else if 0 < y then toDouble x y
  else toDouble (-x) (-y)

/-- Conversion of a Python int to a float: the value CPython produces
whenever the conversion succeeds (exact for `|n| < 2^53`).  CPython raises
`OverflowError` for `|n| ≥ 2^1024 - 2^970`; that error path is modelled
separately by `intToFloatOverflows` / `calculate_section_allocation_checked`,
this total function being meaningful only below the bound. -/
def pyFloatOfInt (n : ℤ) : ℤ := toDouble n 1

/-- Python `int(x)` on a float: truncation toward zero. -/
def pytrunc (x : ℤ) : ℤ :=
  if 0 ≤ x then Int.ediv x (2^200) else -(Int.ediv (-x) (2^200))

/-- The module-level normalization applied to `PODCAST_DURATION_MINUTES`
(config.py lines 28-39): clamp below 15 / above 45, and round off-tier
in-range values to a supported tier at the 22 / 37 cut-offs. -/
def normalize_duration (d : ℤ) : ℤ :=
  if d < 15 then 15
  else if d > 45 then 45
  else if ¬(d = 15 ∨ d = 30 ∨ d = 45) then
    if d < 22 then 15 else if d < 37 then 30 else 45
  else d

/-- The `BASE_SECTION_WEIGHTS` table (config.py lines 42-51); each weight is
the binary64 value of the source's decimal literal. -/
def BASE_SECTION_WEIGHTS : List (String × ℤ) :=
  [("intro", toDouble 5 100),
   ("main_stories", toDouble 65 100),
   ("tech_spotlight", toDouble 15 100),
   ("listener_questions", toDouble 8 100),
   ("deep_dive", toDouble 10 100),
   ("expert_interview", toDouble 10 100),
   ("outro", toDouble 5 100),
   ("transitions", toDouble 7 100)]

/-- Dictionary access `BASE_SECTION_WEIGHTS[s]`. -/
def baseWeight (s : String) : ℤ := (BASE_SECTION_WEIGHTS.lookup s).getD 0

/-- One value of the returned section dictionary.  `word_count_target` and
`enabled` are `none` exactly when the corresponding key is absent from the
Python dict for that section. -/
structure SectionPlan where
  duration_seconds : ℤ
  weight : ℤ
  word_count_target : Option ℤ := none
  enabled : Option Bool := none
deriving DecidableEq

/-- The story-count branch of `calculate_section_allocation`
(config.py lines 70-75): 15 min → 2 stories, 30 min → 3, anything else → 4. -/
def num_main_stories (duration_minutes : ℤ) : ℕ :=
  if duration_minutes = 15 then 2
  else if duration_minutes = 30 then 3
  else 4

/-- The per-story weight `BASE_SECTION_WEIGHTS["main_stories"] / num_main_stories`
(config.py line 107); the divisor int is converted to float, then IEEE-divided. -/
def main_story_weight (duration_minutes : ℤ) : ℤ :=
  fdiv (baseWeight "main_stories")
    (pyFloatOfInt (num_main_stories duration_minutes))

/-- Embedding of `calculate_section_allocation` (config.py lines 54-133).
The returned association list preserves the Python dict's insertion order:
the five fixed sections, then `main_story_1 .. main_story_N`, then the two
optional sections appended afterwards.  This total embedding is faithful
exactly on the inputs where the source returns; for `150·|d| ≥ 2^1024 -
2^970` CPython instead raises `OverflowError` converting `d·60` or `d·150`
to float, an error path restored by `calculate_section_allocation_checked`
below. -/
def calculate_section_allocation (duration_minutes : ℤ) :
    List (String × SectionPlan) :=
  let total_seconds : ℤ := duration_minutes * 60
  let words_per_minute : ℤ := 150
  let target_word_count : ℤ := duration_minutes * words_per_minute
  let ts : ℤ := pyFloatOfInt total_seconds
  let twc : ℤ := pyFloatOfInt target_word_count
  let n : ℕ := num_main_stories duration_minutes
  let msw : ℤ := main_story_weight duration_minutes
  let main_story_duration : ℤ := pytrunc (fmul ts msw)
  let main_story_word_count : ℤ := pytrunc (fmul twc msw)
  [("intro",
    { duration_seconds := pytrunc (fmul ts (baseWeight "intro")),
      weight := baseWeight "intro",
      word_count_target := some (pytrunc (fmul twc (baseWeight "intro"))) }),
   ("outro",
    { duration_seconds := pytrunc (fmul ts (baseWeight "outro")),
      weight := baseWeight "outro",
      word_count_target := some (pytrunc (fmul twc (baseWeight "outro"))) }),
   ("tech_spotlight",
    { duration_seconds := pytrunc (fmul ts (baseWeight "tech_spotlight")),
      weight := baseWeight "tech_spotlight",
      word_count_target :=
        some (pytrunc (fmul twc (baseWeight "tech_spotlight"))) }),
   ("listener_questions",
    { duration_seconds := pytrunc (fmul ts (baseWeight "listener_questions")),
      weight := baseWeight "listener_questions",
      word_count_target :=
        some (pytrunc (fmul twc (baseWeight "listener_questions"))),
      enabled := some true }),
   ("transitions",
    { duration_seconds := pytrunc (fmul ts (baseWeight "transitions")),
      weight := baseWeight "transitions" })]
  ++ (List.range' 1 n).map (fun i =>
      ("main_story_" ++ toString i,
       { duration_seconds := main_story_duration,
         weight := msw,
         word_count_target := some main_story_word_count }))
  ++ [("deep_dive",
    { duration_seconds := pytrunc (fmul ts (baseWeight "deep_dive")),
      weight := baseWeight "deep_dive",
      word_count_target := some (pytrunc (fmul twc (baseWeight "deep_dive"))),
      enabled := some false }),
   ("expert_interview",
    { duration_seconds := pytrunc (fmul ts (baseWeight "expert_interview")),
      weight := baseWeight "expert_interview",
      word_count_target :=
        some (pytrunc (fmul twc (baseWeight "expert_interview"))),
      enabled := some false })]

/-- The keys of the returned plan, in insertion order. -/
def planKeys (d : ℤ) : List String :=
  (calculate_section_allocation d).map Prod.fst

/-- Dictionary access: the section stored under key `s` in the plan for `d`. -/
def sectionOf (d : ℤ) (s : String) : Option SectionPlan :=
  (calculate_section_allocation d).lookup s

/-- The keys `main_story_1 .. main_story_N` produced by the story loop. -/
def storyKeys (d : ℤ) : List String :=
  (List.range' 1 (num_main_stories d)).map (fun i => "main_story_" ++ toString i)

/-- The records of the `main_story_i` entries of the plan for `d`. -/
def mainStoryRecords (d : ℤ) : List SectionPlan :=
  ((calculate_section_allocation d).filter
    (fun p => (storyKeys d).contains p.1)).map Prod.snd

/-- Sum of the `duration_seconds` fields over all sections of the plan. -/
def sumDurations (d : ℤ) : ℤ :=
  ((calculate_section_allocation d).map
    (fun p => p.2.duration_seconds)).sum

/-- CPython's int-to-float conversion (`PyLong_AsDouble`) raises
`OverflowError` exactly when the round-to-nearest-even value of the integer
leaves the binary64 range, i.e. when `|n| ≥ 2^1024 - 2^970` (the midpoint
above the largest finite double rounds up to `2^1024`). -/
def intToFloatOverflows (n : ℤ) : Bool :=
  2^1024 - 2^970 ≤ n.natAbs

/-- The allocator with CPython's error path restored.  Evaluating the dict
literal converts both `total_seconds = d·60` and `target_word_count = d·150`
to float (inside the `intro` entry's products), so the call raises
`OverflowError` — modelled as `none` — exactly when one of those two
conversions overflows; on every other integer it returns the plan of the
total embedding, which is faithful on that whole domain. -/
def calculate_section_allocation_checked (duration_minutes : ℤ) :
    Option (List (String × SectionPlan)) :=
  if intToFloatOverflows (duration_minutes * 60)
      || intToFloatOverflows (duration_minutes * 150)
  then none
  else some (calculate_section_allocation duration_minutes)

/-- The normalization rule exactly as the specification words it (clamp below
15 and above 45 first, return on-tier values unchanged, then round at the
22 / 37 cut-offs), written independently of the source's branch structure so
the two can be compared. -/
def claimNormalize (d : ℤ) : ℤ :=
  if d < 15 then 15
  else if d > 45 then 45
  else if d = 15 ∨ d = 30 ∨ d = 45 then d
  else if d < 22 then 15 else if d < 37 then 30 else 45

/-- The per-section floor formulas of claim C3, as a predicate on the
normalized duration `D`: every fixed-weight section carries
`duration_seconds = floor(D·60·w)` and (except `transitions`)
`word_count_target = floor(D·150·w)` for its exact table weight `w`, and the
main-story entries are `num_main_stories D` identical records built from the
per-story weight `0.65 / N`. -/
def FloorFormulas (D : ℤ) : Prop :=
  sectionOf D "intro" = some ⟨Int.ediv (D * 60 * 5) 100, baseWeight "intro",
    some (Int.ediv (D * 150 * 5) 100), none⟩ ∧
  sectionOf D "outro" = some ⟨Int.ediv (D * 60 * 5) 100, baseWeight "outro",
    some (Int.ediv (D * 150 * 5) 100), none⟩ ∧
  sectionOf D "tech_spotlight" = some ⟨Int.ediv (D * 60 * 15) 100, baseWeight "tech_spotlight",
    some (Int.ediv (D * 150 * 15) 100), none⟩ ∧
  sectionOf D "listener_questions" = some ⟨Int.ediv (D * 60 * 8) 100, baseWeight "listener_questions",
    some (Int.ediv (D * 150 * 8) 100), some true⟩ ∧
  sectionOf D "transitions" = some ⟨Int.ediv (D * 60 * 7) 100, baseWeight "transitions",
    none, none⟩ ∧
  sectionOf D "deep_dive" = some ⟨Int.ediv (D * 60 * 10) 100, baseWeight "deep_dive",
    some (Int.ediv (D * 150 * 10) 100), some false⟩ ∧
  sectionOf D "expert_interview" = some ⟨Int.ediv (D * 60 * 10) 100, baseWeight "expert_interview",
    some (Int.ediv (D * 150 * 10) 100), some false⟩ ∧
  mainStoryRecords D = List.replicate (num_main_stories D)
    ⟨Int.ediv (D * 60 * 65) (100 * (num_main_stories D : ℤ)), main_story_weight D,
     some (Int.ediv (D * 150 * 65) (100 * (num_main_stories D : ℤ))), none⟩

/-- The computed story keys agree with the corresponding string literals. -/
theorem storyKeyLit :
    ("main_story_" ++ toString 1 = "main_story_1") ∧
    ("main_story_" ++ toString 2 = "main_story_2") ∧
    ("main_story_" ++ toString 3 = "main_story_3") ∧
    ("main_story_" ++ toString 4 = "main_story_4") := by
  refine ⟨?_, ?_, ?_, ?_⟩ <;> decide

/-- C1: the duration-normalization step is exactly the claimed function of any
integer input (clamp below 15 / above 45, keep tier values, round at 22 and
37), its output always lies in `{15, 30, 45}`, and the quoted examples
5 ↦ 15, 21 ↦ 15, 22 ↦ 30, 36 ↦ 30, 37 ↦ 45, 100 ↦ 45 hold, clamping taking
priority over rounding. -/
theorem normalize_duration_spec :
    (∀ d : ℤ, normalize_duration d = claimNormalize d) ∧
    (∀ d : ℤ, normalize_duration d = 15 ∨ normalize_duration d = 30 ∨
      normalize_duration d = 45) ∧
    normalize_duration 5 = 15 ∧ normalize_duration 21 = 15 ∧
    normalize_duration 22 = 30 ∧ normalize_duration 36 = 30 ∧
    normalize_duration 37 = 45 ∧ normalize_duration 100 = 45 := by
  refine ⟨fun d => ?_, fun d => ?_,
    by decide, by decide, by decide, by decide, by decide, by decide⟩
  · unfold normalize_duration claimNormalize
    split_ifs <;> omega
  · unfold normalize_duration
    split_ifs <;> omega

/-- C2: the plans for the normalized durations 15, 30 and 45 contain exactly
2, 3 and 4 main-story entries respectively, the main-story keys being exactly
`main_story_1` through `main_story_N`, contiguous from 1 with no gaps and no
other main-story keys (the full key lists are pinned down). -/
theorem main_story_cardinality :
    planKeys 15 = ["intro", "outro", "tech_spotlight", "listener_questions",
      "transitions", "main_story_1", "main_story_2", "deep_dive",
      "expert_interview"] ∧
    planKeys 30 = ["intro", "outro", "tech_spotlight", "listener_questions",
      "transitions", "main_story_1", "main_story_2", "main_story_3",
      "deep_dive", "expert_interview"] ∧
    planKeys 45 = ["intro", "outro", "tech_spotlight", "listener_questions",
      "transitions", "main_story_1", "main_story_2", "main_story_3",
      "main_story_4", "deep_dive", "expert_interview"] ∧
    (mainStoryRecords 15).length = 2 ∧ (mainStoryRecords 30).length = 3 ∧
    (mainStoryRecords 45).length = 4 := by
  decide

/-- C3: for every normalized duration `D ∈ {15, 30, 45}` the IEEE-754 float
computation of the source yields exactly the real-arithmetic floors
`floor(D·60·w)` and `floor(D·150·w)` for every section, the main-story slots
being identical records built from the per-story weight `0.65 / N`; in
particular the 30-minute intro lasts 90 seconds and each 30-minute main story
390 seconds. -/
theorem section_floor_formulas (D : ℤ) (h : D = 15 ∨ D = 30 ∨ D = 45) :
    FloorFormulas D ∧
    (sectionOf 30 "intro").map SectionPlan.duration_seconds = some 90 ∧
    (sectionOf 30 "main_story_1").map SectionPlan.duration_seconds = some 390 := by
  refine ⟨?_, by decide, by decide⟩
  rcases h with rfl | rfl | rfl <;> (unfold FloorFormulas; decide)

/-- C3 witness: the floor formulas hold at the concrete duration 30. -/
theorem section_floor_formulas_witness : FloorFormulas 30 :=
  (section_floor_formulas 30 (by decide)).1

/-- C4 counterexample: at the normalized duration 30 the sum of all
`duration_seconds` fields is 2250, which is not less than
`total_seconds = 1800` — the claim fails because the section weights sum to
1.25, not 1. -/
theorem duration_sum_not_below_total :
    sumDurations 30 = 2250 ∧ ¬(sumDurations 30 < 30 * 60) := by
  decide

/-- C4 amended: for every normalized duration `D ∈ {15, 30, 45}` the sum of
`duration_seconds` over all sections (transitions and the optional sections
included) is at most `1.25 · total_seconds` — the weights total 1.25 — the
shortfall below that bound coming from independent per-section floor
truncation: the sums are 1124 (< 1125), 2250 (= 2250) and 3372 (< 3375). -/
theorem duration_sum_bound (D : ℤ) (h : D = 15 ∨ D = 30 ∨ D = 45) :
    4 * sumDurations D ≤ 5 * (D * 60) ∧ sumDurations 15 = 1124 ∧
    sumDurations 30 = 2250 ∧ sumDurations 45 = 3372 := by
  rcases h with rfl | rfl | rfl <;> decide

/-- C4 witness: the amended bound holds at the concrete duration 45. -/
theorem duration_sum_bound_witness : 4 * sumDurations 45 ≤ 5 * (45 * 60) :=
  (duration_sum_bound 45 (by decide)).1

/-- C5: for every normalized duration, the per-story weight times the number
of main stories is exactly the stored `main_stories` weight (the binary64
division happens to be exact for N = 2, 3, 4), and that stored weight differs
from the rational 0.65 by less than `2^(-48)` — conservation well within
floating-point tolerance. -/
theorem main_weight_conserved (D : ℤ) (h : D = 15 ∨ D = 30 ∨ D = 45) :
    main_story_weight D * (num_main_stories D : ℤ) = baseWeight "main_stories" ∧
    (baseWeight "main_stories" * 100 - 65 * 2^200).natAbs ≤ 2^152 := by
  rcases h with rfl | rfl | rfl <;> decide

/-- C5 witness: weight conservation at the concrete duration 15. -/
theorem main_weight_conserved_witness :
    main_story_weight 15 * (num_main_stories 15 : ℤ) = baseWeight "main_stories" ∧
    (baseWeight "main_stories" * 100 - 65 * 2^200).natAbs ≤ 2^152 :=
  main_weight_conserved 15 (by decide)

/-- C6: in every returned plan, `word_count_target` is absent exactly on
`transitions`, and the `enabled` flag is present exactly on
`listener_questions` (true), `deep_dive` (false) and `expert_interview`
(false), absent from every other section including every main-story slot. -/
theorem optional_flags_and_word_counts (d : ℤ) (s : String) (sec : SectionPlan)
    (h : (s, sec) ∈ calculate_section_allocation d) :
    (sec.word_count_target = none ↔ s = "transitions") ∧
    (sec.enabled = if s = "listener_questions" then some true
      else if s = "deep_dive" ∨ s = "expert_interview" then some false
      else none) := by
  have key : List.Forall (fun p : String × SectionPlan =>
      (p.2.word_count_target = none ↔ p.1 = "transitions") ∧
      (p.2.enabled = if p.1 = "listener_questions" then some true
        else if p.1 = "deep_dive" ∨ p.1 = "expert_interview" then some false
        else none)) (calculate_section_allocation d) := by
    by_cases h15 : d = 15
    · subst h15
      simp [calculate_section_allocation, num_main_stories, List.range',
        List.Forall, storyKeyLit.1, storyKeyLit.2.1]
    by_cases h30 : d = 30
    · subst h30
      simp [calculate_section_allocation, num_main_stories, List.range',
        List.Forall, storyKeyLit.1, storyKeyLit.2.1, storyKeyLit.2.2.1]
    · simp [calculate_section_allocation, num_main_stories, h15, h30,
        List.range', List.Forall, storyKeyLit.1, storyKeyLit.2.1,
        storyKeyLit.2.2.1, storyKeyLit.2.2.2]
  exact (List.forall_iff_forall_mem.mp key) (s, sec) h

/-- C6 witness: the transitions entry of the 30-minute plan has no word-count
target and no enabled flag. -/
theorem optional_flags_and_word_counts_witness :
    ((SectionPlan.mk 126 (toDouble 7 100) none none).word_count_target = none ↔
      "transitions" = "transitions") ∧
    ((SectionPlan.mk 126 (toDouble 7 100) none none).enabled =
      if "transitions" = "listener_questions" then some true
      else if "transitions" = "deep_dive" ∨ "transitions" = "expert_interview"
        then some false
      else none) :=
  optional_flags_and_word_counts 30 "transitions"
    (SectionPlan.mk 126 (toDouble 7 100) none none) (by decide)

/-- C7 counterexample: the source does not return for every integer — at the
concrete input `10^307` the conversion of `total_seconds = 10^307·60` to
float overflows, so the call raises `OverflowError` instead of producing any
plan. -/
theorem plan_overflow_at_huge_input :
    calculate_section_allocation_checked (10^307) = none := by
  decide

/-- C7 (amended): whenever the input stays below CPython's int-to-float
overflow bound — `150·|d| < 2^1024 - 2^970`, which covers every normalized
duration and every realistic integer — the allocator returns normally
(no `OverflowError`), and the returned plan is complete: all seven fixed
section keys are present, and so is `main_story_i` for every `i` between 1
and the computed story count; it never returns a partial plan. -/
theorem plan_complete_no_overflow (d : ℤ)
    (hd : 150 * d.natAbs < 2^1024 - 2^970) :
    calculate_section_allocation_checked d =
      some (calculate_section_allocation d) ∧
    ("intro" ∈ planKeys d ∧ "outro" ∈ planKeys d ∧
     "tech_spotlight" ∈ planKeys d ∧ "listener_questions" ∈ planKeys d ∧
     "transitions" ∈ planKeys d ∧ "deep_dive" ∈ planKeys d ∧
     "expert_interview" ∈ planKeys d) ∧
    ∀ i : ℕ, 1 ≤ i → i ≤ num_main_stories d →
      ("main_story_" ++ toString i) ∈ planKeys d := by
  refine ⟨?_, ?_, ?_⟩
  · have h60 : intToFloatOverflows (d * 60) = false := by
      simp only [intToFloatOverflows, decide_eq_false_iff_not, not_le,
        Int.natAbs_mul, Int.natAbs_ofNat]
      have step : d.natAbs * 60 ≤ 150 * d.natAbs := by omega
      exact lt_of_le_of_lt step hd
    have h150 : intToFloatOverflows (d * 150) = false := by
      simp only [intToFloatOverflows, decide_eq_false_iff_not, not_le,
        Int.natAbs_mul, Int.natAbs_ofNat]
      have step : d.natAbs * 150 ≤ 150 * d.natAbs := by omega
      exact lt_of_le_of_lt step hd
    simp [calculate_section_allocation_checked, h60, h150]
  · by_cases h15 : d = 15
    · subst h15; decide
    by_cases h30 : d = 30
    · subst h30; decide
    · refine ⟨?_, ?_, ?_, ?_, ?_, ?_, ?_⟩ <;>
        simp [planKeys, calculate_section_allocation, num_main_stories, h15,
          h30, List.range']
  · intro i h1 h2
    by_cases h15 : d = 15
    · subst h15
      simp [num_main_stories] at h2
      interval_cases i <;> decide
    by_cases h30 : d = 30
    · subst h30
      simp [num_main_stories] at h2
      interval_cases i <;> decide
    · simp [num_main_stories, h15, h30] at h2
      simp [planKeys, calculate_section_allocation, num_main_stories, h15,
        h30, List.range']
      interval_cases i <;> simp

/-- C7 witness: the input 20 is far below the overflow bound — the call
returns its plan, and `main_story_2` is among the keys. -/
theorem plan_complete_no_overflow_witness :
    calculate_section_allocation_checked 20 =
      some (calculate_section_allocation 20) ∧
    ("main_story_" ++ toString 2) ∈ planKeys 20 := by
  have h := plan_complete_no_overflow 20 (by decide)
  exact ⟨h.1, h.2.2 2 (by decide) (by decide)⟩

/-- C8: the allocator is deterministic and stateless — in any sequence of
calls, two calls whose arguments agree return identical plans, regardless of
position or of the other interleaved calls. -/
theorem allocation_deterministic (calls : List ℤ) (i j : ℕ)
    (h : calls[i]? = calls[j]?) :
    (calls.map calculate_section_allocation)[i]? =
      (calls.map calculate_section_allocation)[j]? := by
  simp [List.getElem?_map, h]

/-- C8 witness: in the call sequence 30, 15, 30 the first and third results
coincide. -/
theorem allocation_deterministic_witness :
    (([30, 15, 30] : List ℤ).map calculate_section_allocation)[0]? =
      (([30, 15, 30] : List ℤ).map calculate_section_allocation)[2]? :=
  allocation_deterministic [30, 15, 30] 0 2 (by decide)

/-- C9: calling the allocator directly with any integer other than 15 and 30
— including un-normalized values such as 20, 0 or negatives — produces
exactly the four main-story entries `main_story_1 .. main_story_4`, because
the story-count branch treats every non-{15, 30} input as the 45-minute
tier. -/
theorem off_tier_story_count (d : ℤ) (h15 : d ≠ 15) (h30 : d ≠ 30) :
    planKeys d = ["intro", "outro", "tech_spotlight", "listener_questions",
      "transitions", "main_story_1", "main_story_2", "main_story_3",
      "main_story_4", "deep_dive", "expert_interview"] := by
  simp [planKeys, calculate_section_allocation, num_main_stories, h15, h30,
    List.range', storyKeyLit.1, storyKeyLit.2.1, storyKeyLit.2.2.1,
    storyKeyLit.2.2.2]

/-- C9 witness: the un-normalized input 20 yields four main-story entries. -/
theorem off_tier_story_count_witness :
    planKeys 20 = ["intro", "outro", "tech_spotlight", "listener_questions",
      "transitions", "main_story_1", "main_story_2", "main_story_3",
      "main_story_4", "deep_dive", "expert_interview"] :=
  off_tier_story_count 20 (by decide) (by decide)

/-- C10: for every integer input, the intro and outro records of the plan are
field-for-field equal and carry the weight 0.05, and the deep_dive and
expert_interview records are field-for-field equal, carry the weight 0.10 and
are disabled. -/
theorem intro_outro_symmetry (d : ℤ) :
    sectionOf d "intro" = sectionOf d "outro" ∧
    Option.map SectionPlan.weight (sectionOf d "intro") = some (toDouble 5 100) ∧
    sectionOf d "deep_dive" = sectionOf d "expert_interview" ∧
    Option.map SectionPlan.weight (sectionOf d "deep_dive") =
      some (toDouble 10 100) ∧
    Option.bind (sectionOf d "deep_dive") SectionPlan.enabled = some false := by
  by_cases h15 : d = 15
  · subst h15
    exact ⟨by decide, by decide, by decide, by decide, by decide⟩
  by_cases h30 : d = 30
  · subst h30
    exact ⟨by decide, by decide, by decide, by decide, by decide⟩
  · refine ⟨?_, ?_, ?_, ?_, ?_⟩
    · simp [sectionOf, calculate_section_allocation, num_main_stories, h15,
        h30, List.range', List.lookup,
        (by decide : baseWeight "outro" = baseWeight "intro")]
    · simp [sectionOf, calculate_section_allocation, num_main_stories, h15,
        h30, List.range', List.lookup,
        (by decide : baseWeight "intro" = toDouble 5 100)]
    · simp [sectionOf, calculate_section_allocation, num_main_stories, h15,
        h30, List.range', List.lookup, storyKeyLit.1, storyKeyLit.2.1,
        storyKeyLit.2.2.1, storyKeyLit.2.2.2,
        (by decide : baseWeight "expert_interview" = baseWeight "deep_dive")]
    · simp [sectionOf, calculate_section_allocation, num_main_stories, h15,
        h30, List.range', List.lookup, storyKeyLit.1, storyKeyLit.2.1,
        storyKeyLit.2.2.1, storyKeyLit.2.2.2,
        (by decide : baseWeight "deep_dive" = toDouble 10 100)]
    · simp [sectionOf, calculate_section_allocation, num_main_stories, h15,
        h30, List.range', List.lookup, storyKeyLit.1, storyKeyLit.2.1,
        storyKeyLit.2.2.1, storyKeyLit.2.2.2]
